import Mathlib

/-!
Shallow embedding of the report engine of `src/bot.py` (a Telegram finance
bot).  The bot loads an Excel table with `pandas`, and exposes three query
handlers: `finance` (aggregate sums), `period` (date-range filter) and
`project` (project-name filter).  Cell values are modelled exactly: a cell
is a number (an exact integer: the rounding of the binary floating point
 numbers the source computes with is outside the scope of the claims), a
string, or `na` (the embedding of pandas `NaN`/`NaT`).  `read_data`
(bot.py lines 50-57) catches every exception and returns `None`; this is
modelled by `FileState`, which distinguishes the three possible states of
the backing file, and `read_data`, which collapses the two failure states
into `none` exactly as the source does.
-/

namespace TgBot

/-- A spreadsheet cell: numeric value, text, or pandas `NaN`. -/
inductive Cell where
  | num (z : ℤ)
  | str (s : String)
  | na
deriving DecidableEq, Repr

/-- A row maps column names to cells (assoc list, as a pandas row). -/
abbrev Row := List (String × Cell)

/-- An in-memory table: the column list of the frame plus its rows. -/
structure DataFrame where
  cols : List String
  rows : List Row
deriving DecidableEq, Repr

/-- Reading one cell of a row; a column absent from the row reads as `NaN`
(pandas fills unnamed cells with `NaN`). -/
def rowCell (r : Row) (c : String) : Cell :=
  match r.lookup c with
  | some v => v
  | none => Cell.na

/-- `true` exactly on numeric cells. -/
def Cell.isNum : Cell → Bool
  | Cell.num _ => true
  | _ => false

/-- Numeric value of a cell, `0` on non-numeric cells (used only under the
hypothesis that every relevant cell is numeric). -/
def cellVal : Cell → ℤ
  | Cell.num q => q
  | _ => 0

/-- The state of the backing file `data.xlsx` at query time: absent,
present but not parseable as a spreadsheet, or a loaded table. -/
inductive FileState where
  | missing
  | unparseable
  | ok (df : DataFrame)
deriving DecidableEq, Repr

/-- bot.py lines 50-57: `pd.read_excel` inside a bare `try`; every failure
(missing file, parse failure) is logged and collapsed into `None`. -/
def read_data : FileState → Option DataFrame
  | FileState.missing => none
  | FileState.unparseable => none
  | FileState.ok df => some df

/-- Column names exactly as in the source (bot.py lines 68-70, 98, 133). -/
def colProfit : String := "Чистая прибыль"

/-- bot.py line 69: the proceeds column. -/
def colProceeds : String := "Сумма к перечислению"

/-- bot.py line 70: the expenses column. -/
def colExpenses : String := "Расходы"

/-- bot.py line 98: the date column. -/
def colDate : String := "Дата"

/-- bot.py line 133: the project column. -/
def colProject : String := "Проект"

/-- `Series.sum()` of a list of cells: `NaN` cells are skipped (pandas
default `skipna`), an empty list sums to `0`, and a string cell makes the
whole sum unusable (in the source a string-valued column makes either the
sum or the numeric formatting of the result raise, which the handler turns
into its generic processing error), modelled as `none`. -/
def cellsSum : List Cell → Option ℤ
  | [] => some 0
  | Cell.na :: cs => cellsSum cs
  | Cell.num q :: cs => (cellsSum cs).map (fun t => q + t)
  | Cell.str _ :: _ => none

/-- `df[c]`: the cells of column `c`, or `none` (a `KeyError`) when the
column is absent from the frame. -/
def colCells (df : DataFrame) (c : String) : Option (List Cell) :=
  if c ∈ df.cols then some (df.rows.map (fun r => rowCell r c)) else none

/-- `df[c].sum()`: `none` when the column is absent or its sum unusable. -/
def sumOf (df : DataFrame) (c : String) : Option ℤ :=
  (colCells df c).bind cellsSum

/-- The arithmetic sum of column `c` over all rows of `df`, reading each
cell as its numeric value. -/
def colValuesSum (df : DataFrame) (c : String) : ℤ :=
  (df.rows.map (fun r => cellVal (rowCell r c))).sum

/-- Outcome of the `/finance` handler: the three distinct replies of
bot.py lines 60-80. -/
inductive FinanceResult where
  | loadError
  | procError
  | report (profit proceeds expenses : ℤ)
deriving DecidableEq, Repr

/-- bot.py lines 60-80: load the table (reply with the load-error message
on `None`), then sum the three numeric columns inside a bare `try` whose
`except` replies with one generic processing-error message. -/
def finance (fs : FileState) : FinanceResult :=
  match read_data fs with
  | none => FinanceResult.loadError
  | some df =>
    match sumOf df colProfit, sumOf df colProceeds, sumOf df colExpenses with
    | some p, some s, some e => FinanceResult.report p s e
    | _, _, _ => FinanceResult.procError

/-- A parsed calendar date. -/
structure PDate where
  year : Nat
  month : Nat
  day : Nat
deriving DecidableEq, Repr

/-- Order-preserving encoding of a valid date (`month ≤ 12`, `day ≤ 31`):
comparisons of pandas timestamps are embedded as comparisons of serials. -/
def PDate.serial (d : PDate) : Nat := d.year * 10000 + d.month * 100 + d.day

/-- The `<=` of pandas timestamps, on the serial encoding. -/
def dateLe (a b : PDate) : Bool := decide (a.serial ≤ b.serial)

/-- Leap-year rule of the Gregorian calendar. -/
def isLeap (y : Nat) : Bool := (y % 4 == 0 && y % 100 != 0) || y % 400 == 0

/-- Number of days of month `m` of year `y`. -/
def daysInMonth (y m : Nat) : Nat :=
  if m = 2 then (if isLeap y then 29 else 28)
  else if m = 4 ∨ m = 6 ∨ m = 9 ∨ m = 11 then 30 else 31

/-- Decimal value of a digit character, `none` on a non-digit. -/
def digitVal (c : Char) : Option Nat :=
  if c.isDigit then some (c.toNat - 48) else none

/-- Accumulating decimal parse of a digit list. -/
def parseNatAux : List Char → Nat → Option Nat
  | [], acc => some acc
  | c :: cs, acc =>
    match digitVal c with
    | some d => parseNatAux cs (acc * 10 + d)
    | none => none

/-- Decimal parse of a nonempty digit list. -/
def parseNat : List Char → Option Nat
  | [] => none
  | l => parseNatAux l 0

/-- Splits a character list at every dot, keeping empty pieces. -/
def splitDotsAux : List Char → List Char → List (List Char)
  | [], acc => [acc.reverse]
  | c :: cs, acc =>
    if c = '.' then acc.reverse :: splitDotsAux cs []
    else splitDotsAux cs (c :: acc)

/-- Splits a character list at every dot. -/
def splitDots (l : List Char) : List (List Char) := splitDotsAux l []

/-- `pd.to_datetime(s, dayfirst=True)` restricted to the `ДД.ММ.ГГГГ`
(day.month.year) shape the bot documents to its users (bot.py lines 29,
86): day first, then month, then year, dot-separated; the day must exist
in the Gregorian calendar, else the parse fails (`none`). -/
def toDatetime (s : String) : Option PDate :=
  match splitDots s.data with
  | [ds, ms, ys] =>
    match parseNat ds, parseNat ms, parseNat ys with
    | some d, some m, some y =>
      if 1 ≤ m ∧ m ≤ 12 ∧ 1 ≤ d ∧ d ≤ daysInMonth y m then
        some { year := y, month := m, day := d }
      else none
    | _, _, _ => none
  | _ => none

/-- bot.py line 102: the coerced date of a row, `pd.to_datetime(cell,
dayfirst=True, errors="coerce")`: a non-string or unparseable cell
becomes `NaT`, embedded as `none`. -/
def cellDate (r : Row) : Option PDate :=
  match rowCell r colDate with
  | Cell.str s => toDatetime s
  | _ => none

/-- bot.py line 103: the row mask — `NaT` compares false against both
bounds, so a row whose date failed to parse is excluded. -/
def inRange (s e : PDate) (r : Row) : Bool :=
  match cellDate r with
  | some d => dateLe s d && dateLe d e
  | none => false

/-- bot.py lines 103-104: the filtered frame of the `/period` handler. -/
def periodFilter (s e : PDate) (rows : List Row) : List Row :=
  rows.filter (inRange s e)

/-- `df_filtered[c].sum()` where `df_filtered` keeps the columns of `df`:
`none` (`KeyError` or an unusable sum) otherwise. -/
def filteredSum (df : DataFrame) (kept : List Row) (c : String) : Option ℤ :=
  if c ∈ df.cols then cellsSum (kept.map (fun r => rowCell r c)) else none

/-- Outcome of the `/period` handler: the six distinct replies of
bot.py lines 83-117. -/
inductive PeriodResult where
  | wrongArgCount
  | procError
  | loadError
  | noDateColumn
  | noMatchingRows
  | report (profit : ℤ)
deriving DecidableEq, Repr

/-- bot.py lines 83-117: exactly two arguments required; both parsed with
`dayfirst=True` (a parse failure raises into the generic handler); the
table is loaded; the `Date` column must exist; rows are kept by the
inclusive mask of line 103; an empty filtered frame replies no-data;
otherwise the kept rows' profit is summed. -/
def period (args : List String) (fs : FileState) : PeriodResult :=
  match args with
  | [a, b] =>
    match toDatetime a, toDatetime b with
    | some s, some e =>
      match read_data fs with
      | none => PeriodResult.loadError
      | some df =>
        if colDate ∈ df.cols then
          if periodFilter s e df.rows = [] then PeriodResult.noMatchingRows
          else
            match filteredSum df (periodFilter s e df.rows) colProfit with
            | some p => PeriodResult.report p
            | none => PeriodResult.procError
        else PeriodResult.noDateColumn
    | _, _ => PeriodResult.procError
  | _ => PeriodResult.wrongArgCount

/-- `str.lower()` of the source, on the ASCII range (the concrete project
names of the spec are ASCII; the embedding lowercases characters exactly
as far as `Char.toLower` does). -/
def lowerStr (s : String) : String := String.mk (s.data.map Char.toLower)

/-- bot.py line 137: one row of the project mask —
`df["Проект"].str.lower() == project_name.lower()`.  On a non-string cell
`.str.lower()` yields `NaN`, which compares unequal to every string, so
such a row is excluded. -/
def projMatch (name : String) (r : Row) : Bool :=
  match rowCell r colProject with
  | Cell.str s => lowerStr s == lowerStr name
  | _ => false

/-- Outcome of the `/project` handler: the six distinct replies of
bot.py lines 120-150. -/
inductive ProjectResult where
  | noArgs
  | procError
  | loadError
  | noProjectColumn
  | noMatchingRows
  | report (profit : ℤ)
deriving DecidableEq, Repr

/-- bot.py lines 120-150: with no arguments the handler replies with the
usage message before touching any data; otherwise the name is the
space-join of the arguments, the table is loaded, the `Project` column
must exist, rows are kept by the case-insensitive exact mask of line 137,
an empty filtered frame replies no-data, else profit is summed. -/
def project (args : List String) (fs : FileState) : ProjectResult :=
  match args with
  | [] => ProjectResult.noArgs
  | _ =>
    match read_data fs with
    | none => ProjectResult.loadError
    | some df =>
      if colProject ∈ df.cols then
        if df.rows.filter (projMatch (String.intercalate " " args)) = [] then
          ProjectResult.noMatchingRows
        else
          match filteredSum df
              (df.rows.filter (projMatch (String.intercalate " " args)))
              colProfit with
          | some p => ProjectResult.report p
          | none => ProjectResult.procError
      else ProjectResult.noProjectColumn

/-- Whitespace-splitting of a command tail into tokens, as the bot
platform produces `context.args` (whitespace runs separate tokens, and
surrounding whitespace produces no token).  `acc` holds the reversed
characters of the token being read. -/
def wordsAux : List Char → List Char → List (List Char)
  | [], [] => []
  | [], acc => [acc.reverse]
  | c :: cs, acc =>
    if c.isWhitespace then
      match acc with
      | [] => wordsAux cs []
      | _ => acc.reverse :: wordsAux cs []
    else wordsAux cs (c :: acc)

/-- The `context.args` list the platform hands the handlers for a raw
argument string. -/
def contextArgs (s : String) : List String :=
  (wordsAux s.data []).map String.mk

/-- `true` exactly when the string trims to the empty string. -/
def isBlank (s : String) : Bool := s.data.all Char.isWhitespace

/-- One full `/project` request against a world holding the backing file.
The handler writes nothing (only `/update`, bot.py lines 34-47, writes
`data.xlsx`), so the world comes back unchanged. -/
def projectRun (args : List String) (w : FileState) :
    ProjectResult × FileState :=
  (project args w, w)

/-- The concrete table of the spec scenario (§8): two rows, projects
Alpha and beta. -/
def dfScenario : DataFrame :=
  { cols := [colDate, colProject, colProfit, colProceeds, colExpenses]
    rows :=
      [ [(colDate, Cell.str "05.01.2024"), (colProject, Cell.str "Alpha"),
         (colProfit, Cell.num 100), (colProceeds, Cell.num 150),
         (colExpenses, Cell.num 50)],
        [(colDate, Cell.str "10.02.2024"), (colProject, Cell.str "beta"),
         (colProfit, Cell.num 200), (colProceeds, Cell.num 300),
         (colExpenses, Cell.num 100)] ] }

/-- A three-row table whose middle row has a malformed date cell. -/
def dfMalformed : DataFrame :=
  { cols := [colDate, colProfit]
    rows :=
      [ [(colDate, Cell.str "05.01.2024"), (colProfit, Cell.num 100)],
        [(colDate, Cell.str "garbage"), (colProfit, Cell.num 999)],
        [(colDate, Cell.str "10.02.2024"), (colProfit, Cell.num 200)] ] }

/-- A table with no `NetProfit` column at all (and no other numeric
column either). -/
def dfNoProfit : DataFrame :=
  { cols := [colDate, colProject]
    rows := [ [(colDate, Cell.str "05.01.2024"),
               (colProject, Cell.str "Alpha")] ] }

/-- A table missing exactly the `NetProfit` column, every other required
column present and well formed. -/
def dfNoProfitCol : DataFrame :=
  { cols := [colDate, colProject, colProceeds, colExpenses]
    rows :=
      [ [(colDate, Cell.str "05.01.2024"), (colProject, Cell.str "Alpha"),
         (colProceeds, Cell.num 150), (colExpenses, Cell.num 50)] ] }

/-- A table with all required columns where one `NetProfit` cell holds
text, so its sum is unusable. -/
def dfBadCell : DataFrame :=
  { cols := [colDate, colProject, colProfit, colProceeds, colExpenses]
    rows :=
      [ [(colDate, Cell.str "05.01.2024"), (colProject, Cell.str "Alpha"),
         (colProfit, Cell.str "oops"), (colProceeds, Cell.num 150),
         (colExpenses, Cell.num 50)] ] }

lemma cellsSum_of_all_num (l : List Cell) (h : ∀ x ∈ l, x.isNum = true) :
    cellsSum l = some ((l.map cellVal).sum) := by
  induction l with
  | nil => simp [cellsSum]
  | cons x xs ih =>
    have hx : x.isNum = true := h x (List.mem_cons_self x xs)
    have hxs : ∀ y ∈ xs, y.isNum = true := fun y hy => h y (List.mem_cons_of_mem x hy)
    cases x with
    | num q => simp [cellsSum, ih hxs, cellVal]
    | str s => simp [Cell.isNum] at hx
    | na => simp [Cell.isNum] at hx

lemma sumOf_of_all_num (df : DataFrame) (c : String) (hc : c ∈ df.cols)
    (h : ∀ r ∈ df.rows, (rowCell r c).isNum = true) :
    sumOf df c = some (colValuesSum df c) := by
  have hcells : ∀ x ∈ df.rows.map (fun r => rowCell r c), x.isNum = true := by
    intro x hx
    rcases List.mem_map.mp hx with ⟨r, hr, rfl⟩
    exact h r hr
  simp [sumOf, colCells, hc, cellsSum_of_all_num _ hcells, colValuesSum,
    List.map_map, Function.comp_def]

lemma inRange_iff (s e : PDate) (r : Row) :
    inRange s e r = true ↔
      ∃ d, cellDate r = some d ∧ s.serial ≤ d.serial ∧ d.serial ≤ e.serial := by
  cases hd : cellDate r with
  | none => simp [inRange, hd]
  | some d => simp [inRange, hd, dateLe]

lemma mem_periodFilter (s e : PDate) (rows : List Row) (r : Row) :
    r ∈ periodFilter s e rows ↔
      r ∈ rows ∧ ∃ d, cellDate r = some d ∧
        s.serial ≤ d.serial ∧ d.serial ≤ e.serial := by
  rw [periodFilter, List.mem_filter, inRange_iff]

lemma wordsAux_cons_ws (c : Char) (l : List Char) (hw : c.isWhitespace = true) :
    wordsAux (c :: l) [] = wordsAux l [] := by
  simp [wordsAux, hw]

lemma wordsAux_append_ws (c : Char) (hw : c.isWhitespace = true) :
    ∀ (l acc : List Char), wordsAux (l ++ [c]) acc = wordsAux l acc := by
  intro l
  induction l with
  | nil =>
    intro acc
    cases acc with
    | nil => simp [wordsAux, hw]
    | cons a as => simp [wordsAux, hw]
  | cons x xs ih =>
    intro acc
    by_cases hx : x.isWhitespace = true
    · cases acc with
      | nil => simpa [wordsAux, hx] using ih []
      | cons a as => simpa [wordsAux, hx] using ih []
    · simpa [wordsAux, hx] using ih (x :: acc)

lemma wordsAux_all_ws (l : List Char) (h : ∀ c ∈ l, c.isWhitespace = true) :
    wordsAux l [] = [] := by
  induction l with
  | nil => rfl
  | cons c cs ih =>
    have hc : c.isWhitespace = true := h c (List.mem_cons_self c cs)
    simp [wordsAux, hc, ih (fun x hx => h x (List.mem_cons_of_mem c hx))]

/-- C1: for every loaded table whose three required numeric columns are
present and numeric, `finance` reports exactly the arithmetic sum of each
of `NetProfit`, `Proceeds`, `Expenses` over all rows; and when the table
has zero rows the report is all-zero sums, not an error. -/
theorem C1_aggregate_sums (fs : FileState) (df : DataFrame)
    (hread : read_data fs = some df)
    (h1 : colProfit ∈ df.cols) (h2 : colProceeds ∈ df.cols)
    (h3 : colExpenses ∈ df.cols)
    (hnum : ∀ r ∈ df.rows, (rowCell r colProfit).isNum = true ∧
      (rowCell r colProceeds).isNum = true ∧
      (rowCell r colExpenses).isNum = true) :
    finance fs = FinanceResult.report (colValuesSum df colProfit)
      (colValuesSum df colProceeds) (colValuesSum df colExpenses) ∧
    (df.rows = [] → finance fs = FinanceResult.report 0 0 0) := by
  have hp := sumOf_of_all_num df colProfit h1 (fun r hr => (hnum r hr).1)
  have hs := sumOf_of_all_num df colProceeds h2 (fun r hr => (hnum r hr).2.1)
  have he := sumOf_of_all_num df colExpenses h3 (fun r hr => (hnum r hr).2.2)
  constructor
  · simp [finance, hread, hp, hs, he]
  · intro hrows
    simp [finance, hread, hp, hs, he, colValuesSum, hrows]

/-- C1 witness: on the spec scenario table `finance` reports the sums
300, 450, 150. -/
theorem C1_aggregate_sums_witness :
    finance (FileState.ok dfScenario) = FinanceResult.report 300 450 150 := by
  have h := (C1_aggregate_sums (FileState.ok dfScenario) dfScenario rfl
    (by decide) (by decide) (by decide) (by decide)).1
  rw [h]
  decide

/-- C2: for every loaded table and every nonempty argument list, the
`/project` filter keeps exactly the rows whose `Project` cell is a string
equal, lowercased, to the lowercased name (full-string equality, hence an
exact and case-insensitive match, never a substring match), and the
reported value is the `NetProfit` sum over exactly the kept rows; and the
argument tokenization discards surrounding whitespace of the raw input,
so the comparison key is the trimmed name. -/
theorem C2_project_exact_ci :
    (∀ (fs : FileState) (df : DataFrame) (args : List String),
      read_data fs = some df → colProject ∈ df.cols → args ≠ [] →
      (∀ r, r ∈ df.rows.filter (projMatch (String.intercalate " " args)) ↔
        r ∈ df.rows ∧ ∃ s, rowCell r colProject = Cell.str s ∧
          lowerStr s = lowerStr (String.intercalate " " args)) ∧
      (∀ p : ℤ,
        df.rows.filter (projMatch (String.intercalate " " args)) ≠ [] →
        filteredSum df (df.rows.filter (projMatch (String.intercalate " " args)))
          colProfit = some p →
        project args fs = ProjectResult.report p)) ∧
    (∀ (l : List Char) (c : Char), c.isWhitespace = true →
      contextArgs (String.mk (c :: l)) = contextArgs (String.mk l) ∧
      contextArgs (String.mk (l ++ [c])) = contextArgs (String.mk l)) := by
  constructor
  · intro fs df args hread hcol hargs
    constructor
    · intro r
      rw [List.mem_filter]
      constructor
      · rintro ⟨hr, hm⟩
        refine ⟨hr, ?_⟩
        cases hc : rowCell r colProject with
        | str s =>
          refine ⟨s, rfl, ?_⟩
          rw [projMatch, hc] at hm
          exact eq_of_beq hm
        | num q => rw [projMatch, hc] at hm; cases hm
        | na => rw [projMatch, hc] at hm; cases hm
      · rintro ⟨hr, s, hc, hs⟩
        exact ⟨hr, by simp [projMatch, hc, hs]⟩
    · intro p hne hsum
      cases args with
      | nil => exact absurd rfl hargs
      | cons a as => simp [project, hread, hcol, hne, hsum]
  · intro l c hw
    exact ⟨congrArg (List.map String.mk) (wordsAux_cons_ws c l hw),
      congrArg (List.map String.mk) (wordsAux_append_ws c hw l [])⟩

/-- C2 witness: on the spec scenario table, `/project ALPHA` matches the
row whose project is `Alpha` and reports its profit 100. -/
theorem C2_project_exact_ci_witness :
    project ["ALPHA"] (FileState.ok dfScenario) = ProjectResult.report 100 :=
  ((C2_project_exact_ci.1 (FileState.ok dfScenario) dfScenario ["ALPHA"]
    rfl (by decide) (by decide)).2) 100 (by decide) (by decide)

/-- C3: the `/period` filter keeps a row exactly when its date parses and
falls between the two bounds inclusively (so `byPeriod(start, start)`
keeps a row dated exactly `start`), and the handler reports the
`NetProfit` sum over exactly the kept rows. -/
theorem C3_period_inclusive :
    (∀ (s e : PDate) (rows : List Row) (r : Row),
      r ∈ periodFilter s e rows ↔
        r ∈ rows ∧ ∃ d, cellDate r = some d ∧
          s.serial ≤ d.serial ∧ d.serial ≤ e.serial) ∧
    (∀ (rows : List Row) (r : Row) (d : PDate),
      r ∈ rows → cellDate r = some d → r ∈ periodFilter d d rows) ∧
    (∀ (a b : String) (s e : PDate) (fs : FileState) (df : DataFrame)
      (p : ℤ),
      toDatetime a = some s → toDatetime b = some e →
      read_data fs = some df → colDate ∈ df.cols →
      periodFilter s e df.rows ≠ [] →
      filteredSum df (periodFilter s e df.rows) colProfit = some p →
      period [a, b] fs = PeriodResult.report p) := by
  refine ⟨mem_periodFilter, ?_, ?_⟩
  · intro rows r d hr hd
    exact (mem_periodFilter d d rows r).mpr ⟨hr, d, hd, le_refl _, le_refl _⟩
  · intro a b s e fs df p ha hb hread hcol hne hsum
    simp [period, ha, hb, hread, hcol, hne, hsum]

/-- C3 witness: `/period 05.01.2024 05.01.2024` on the spec scenario
table keeps the row dated exactly 5 January 2024 and reports 100. -/
theorem C3_period_inclusive_witness :
    period ["05.01.2024", "05.01.2024"] (FileState.ok dfScenario) =
      PeriodResult.report 100 :=
  C3_period_inclusive.2.2 "05.01.2024" "05.01.2024"
    { year := 2024, month := 1, day := 5 } { year := 2024, month := 1, day := 5 }
    (FileState.ok dfScenario) dfScenario 100
    (by decide) (by decide) rfl (by decide) (by decide) (by decide)

/-- C4: a row whose date cell does not parse is excluded from the
`/period` filter without affecting the other rows (removing the
unparseable rows first changes nothing), and the query still answers with
a report computed from the remaining rows. -/
theorem C4_malformed_date_skipped :
    (∀ (s e : PDate) (rows : List Row),
      periodFilter s e (rows.filter (fun r => (cellDate r).isSome)) =
        periodFilter s e rows) ∧
    (∀ (s e : PDate) (rows : List Row) (r : Row),
      cellDate r = none → r ∉ periodFilter s e rows) ∧
    (∀ (a b : String) (s e : PDate) (fs : FileState) (df : DataFrame)
      (p : ℤ),
      toDatetime a = some s → toDatetime b = some e →
      read_data fs = some df → colDate ∈ df.cols →
      periodFilter s e df.rows ≠ [] →
      filteredSum df (periodFilter s e df.rows) colProfit = some p →
      period [a, b] fs = PeriodResult.report p) := by
  refine ⟨?_, ?_, ?_⟩
  · intro s e rows
    induction rows with
    | nil => rfl
    | cons r rs ih =>
      cases hd : cellDate r with
      | none =>
        have hm : inRange s e r = false := by simp [inRange, hd]
        simp [periodFilter, List.filter_cons, hd, hm] at ih ⊢
        exact ih
      | some d =>
        have : (cellDate r).isSome = true := by simp [hd]
        simp [periodFilter, List.filter_cons, this] at ih ⊢
        cases hm : inRange s e r <;> simp [hm, ih]
  · intro s e rows r hd hmem
    rcases (mem_periodFilter s e rows r).mp hmem with ⟨-, d, hd2, -⟩
    rw [hd] at hd2
    cases hd2
  · intro a b s e fs df p ha hb hread hcol hne hsum
    simp [period, ha, hb, hread, hcol, hne, hsum]

/-- C4 witness: on the three-row table whose middle row has the malformed
date cell `garbage`, a period query spanning the whole year answers from
the other two rows: 100 + 200 = 300, and the malformed row is not in the
filtered set. -/
theorem C4_malformed_date_skipped_witness :
    period ["01.01.2024", "31.12.2024"] (FileState.ok dfMalformed) =
      PeriodResult.report 300 :=
  C4_malformed_date_skipped.2.2 "01.01.2024" "31.12.2024"
    { year := 2024, month := 1, day := 1 } { year := 2024, month := 12, day := 31 }
    (FileState.ok dfMalformed) dfMalformed 300
    (by decide) (by decide) rfl (by decide) (by decide) (by decide)

/-- C6: a reversed range (second bound chronologically before the first)
matches no row, so the `/period` handler replies with the no-data
outcome, not an error and not a non-empty report. -/
theorem C6_reversed_range (a b : String) (s e : PDate) (fs : FileState)
    (df : DataFrame)
    (ha : toDatetime a = some s) (hb : toDatetime b = some e)
    (hlt : e.serial < s.serial)
    (hread : read_data fs = some df) (hcol : colDate ∈ df.cols) :
    period [a, b] fs = PeriodResult.noMatchingRows := by
  have hnil : periodFilter s e df.rows = [] := by
    rw [periodFilter, List.filter_eq_nil_iff]
    intro r hr
    cases hd : cellDate r with
    | none => simp [inRange, hd]
    | some d =>
      simp only [inRange, hd, dateLe, Bool.and_eq_true, decide_eq_true_eq, not_and]
      intro h1 h2
      omega
  simp [period, ha, hb, hread, hcol, hnil]

/-- C6 witness: `/period 10.02.2024 05.01.2024` (bounds reversed) on the
spec scenario table replies no-data. -/
theorem C6_reversed_range_witness :
    period ["10.02.2024", "05.01.2024"] (FileState.ok dfScenario) =
      PeriodResult.noMatchingRows :=
  C6_reversed_range "10.02.2024" "05.01.2024"
    { year := 2024, month := 2, day := 10 } { year := 2024, month := 1, day := 5 }
    (FileState.ok dfScenario) dfScenario
    (by decide) (by decide) (by decide) rfl (by decide)

/-- C7: a name that is whitespace only (so empty after trimming) reaches
the handler as an empty argument list, and the handler replies with the
usage (invalid-argument) message for every state of the backing file —
in particular it never loads the table, filters, or sums. -/
theorem C7_blank_name_rejected (s : String) (fs : FileState)
    (h : isBlank s = true) :
    contextArgs s = [] ∧ project (contextArgs s) fs = ProjectResult.noArgs := by
  have hargs : contextArgs s = [] := by
    rw [contextArgs, wordsAux_all_ws s.data (by simpa [isBlank, List.all_eq_true] using h)]
    rfl
  exact ⟨hargs, by rw [hargs]; rfl⟩

/-- C7 witness: the whitespace-only name `"   "` is rejected with the
usage message even though the backing file is missing. -/
theorem C7_blank_name_rejected_witness :
    contextArgs "   " = [] ∧
      project (contextArgs "   ") FileState.missing = ProjectResult.noArgs :=
  C7_blank_name_rejected "   " FileState.missing (by decide)

/-- C8: one `/project` request leaves the world (the backing file)
unchanged, so a second request with the identical arguments against the
world left by the first yields the identical result. -/
theorem C8_project_idempotent (w : FileState) (args : List String) :
    (projectRun args ((projectRun args w).2)).1 = (projectRun args w).1 ∧
      (projectRun args w).2 = w :=
  ⟨rfl, rfl⟩

/-- C9: dates are parsed day-first — the argument string `02.03.2024`
denotes 2 March 2024 — and uniformly so: a table date cell is coerced by
exactly the same parse as a `/period` argument, and a row whose cell
carries any date `d` is kept by the mask of the period from `d` to `d`. -/
theorem C9_dayfirst_uniform :
    toDatetime "02.03.2024" = some { year := 2024, month := 3, day := 2 } ∧
    (∀ (r : Row) (s : String), rowCell r colDate = Cell.str s →
      cellDate r = toDatetime s) ∧
    (∀ (r : Row) (d : PDate), cellDate r = some d → inRange d d r = true) := by
  refine ⟨by decide, ?_, ?_⟩
  · intro r s h
    rw [cellDate, h]
  · intro r d h
    simp [inRange, h, dateLe]

/-- C9 witness: a cell holding `02.03.2024` is coerced to the same value
the argument parser yields, and its row is kept by the period from that
day to itself. -/
theorem C9_dayfirst_uniform_witness :
    cellDate [(colDate, Cell.str "02.03.2024")] = toDatetime "02.03.2024" ∧
      inRange { year := 2024, month := 3, day := 2 }
        { year := 2024, month := 3, day := 2 }
        [(colDate, Cell.str "02.03.2024")] = true :=
  ⟨C9_dayfirst_uniform.2.1 [(colDate, Cell.str "02.03.2024")] "02.03.2024" (by decide),
    C9_dayfirst_uniform.2.2 [(colDate, Cell.str "02.03.2024")]
      { year := 2024, month := 3, day := 2 } (by decide)⟩

/-- C10: in both handlers the empty-filtered-set check precedes any
access to the `NetProfit` column: whenever the filtered set is empty the
reply is the no-data outcome, with no hypothesis at all about the
`NetProfit` column — in particular also when it is absent. -/
theorem C10_empty_before_profit :
    (∀ (a b : String) (s e : PDate) (fs : FileState) (df : DataFrame),
      toDatetime a = some s → toDatetime b = some e →
      read_data fs = some df → colDate ∈ df.cols →
      periodFilter s e df.rows = [] →
      period [a, b] fs = PeriodResult.noMatchingRows) ∧
    (∀ (args : List String) (fs : FileState) (df : DataFrame),
      args ≠ [] → read_data fs = some df → colProject ∈ df.cols →
      df.rows.filter (projMatch (String.intercalate " " args)) = [] →
      project args fs = ProjectResult.noMatchingRows) := by
  constructor
  · intro a b s e fs df ha hb hread hcol hnil
    simp [period, ha, hb, hread, hcol, hnil]
  · intro args fs df hargs hread hcol hnil
    cases args with
    | nil => exact absurd rfl hargs
    | cons a as => simp [project, hread, hcol, hnil]

/-- C10 witness: on a table that has no `NetProfit` column at all, a
period with no matching row and a project with no matching row both reply
no-data rather than erroring on the missing column. -/
theorem C10_empty_before_profit_witness :
    period ["01.02.2024", "28.02.2024"] (FileState.ok dfNoProfit) =
      PeriodResult.noMatchingRows ∧
    project ["Gamma"] (FileState.ok dfNoProfit) =
      ProjectResult.noMatchingRows :=
  ⟨C10_empty_before_profit.1 "01.02.2024" "28.02.2024"
      { year := 2024, month := 2, day := 1 } { year := 2024, month := 2, day := 28 }
      (FileState.ok dfNoProfit) dfNoProfit
      (by decide) (by decide) rfl (by decide) (by decide),
    C10_empty_before_profit.2 ["Gamma"] (FileState.ok dfNoProfit) dfNoProfit
      (by decide) rfl (by decide) (by decide)⟩

/-- C5 counterexample: on the table missing exactly the `NetProfit`
column the load step succeeds (no `SchemaError` is raised before
aggregation), the failure only appears inside the aggregation as the one
generic processing outcome — the very same outcome an unrelated bad-cell
table produces — and the two load failure kinds (missing file,
unparseable file) are collapsed into one `none` by `read_data`. -/
theorem C5_no_schema_error_counterexample :
    read_data (FileState.ok dfNoProfitCol) = some dfNoProfitCol ∧
    finance (FileState.ok dfNoProfitCol) = FinanceResult.procError ∧
    finance (FileState.ok dfBadCell) = FinanceResult.procError ∧
    read_data FileState.missing = read_data FileState.unparseable :=
  ⟨rfl, by decide, by decide, rfl⟩

/-- C5 amended: a backing file missing the `NetProfit` column still loads
successfully; the failure surfaces only during aggregation, as the same
undifferentiated processing outcome as any other aggregation failure,
while a missing backing file and an unparseable backing file are
collapsed into one undifferentiated load-failure outcome. -/
theorem C5_collapsed_errors (df : DataFrame) (h : colProfit ∉ df.cols) :
    read_data (FileState.ok df) = some df ∧
    finance (FileState.ok df) = FinanceResult.procError ∧
    finance FileState.missing = FinanceResult.loadError ∧
    finance FileState.unparseable = FinanceResult.loadError := by
  have hsum : sumOf df colProfit = none := by
    simp [sumOf, colCells, h]
  exact ⟨rfl, by simp [finance, read_data, hsum], rfl, rfl⟩

/-- C5 amended witness: instantiated on the table missing exactly the
`NetProfit` column. -/
theorem C5_collapsed_errors_witness :
    read_data (FileState.ok dfNoProfitCol) = some dfNoProfitCol ∧
    finance (FileState.ok dfNoProfitCol) = FinanceResult.procError ∧
    finance FileState.missing = FinanceResult.loadError ∧
    finance FileState.unparseable = FinanceResult.loadError :=
  C5_collapsed_errors dfNoProfitCol (by decide)

end TgBot
